import Mathlib

/-!
Verification development for the poppy reaction-network compiler and its
fluid-approximation simulator.

The symbolic layer (sympy expressions) is embedded as the inductive type
`SymExpr`: numeric literals, symbols, flattened sums and products, integer
powers and a binary max, which is exactly the expression language the
repository's rate functions use.  The functions of
`boppy/simulators/fluid_approximation.py` (`variables_involved`, `scaling`,
`create_equations`, `spamspamspam`, `fluid_approximation`) are translated
over this type; `sym.limit(·, N, oo)` is modelled on the Laurent-in-N
fragment those functions feed it.  Components of `poppy.core` and
`poppy.file_parser` whose sources are not part of the repository snapshot
are modelled from the specification text and marked as such.
-/

/-- Embedding of the sympy expressions the repository manipulates:
rational constants, symbols, sums, products, integer powers and `Max`.
`add`/`mul` are binary but flattened by `argsE` below, matching sympy's
flattened `Add`/`Mul` argument tuples. -/
inductive SymExpr where
  | num : ℚ → SymExpr
  | sym : String → SymExpr
  | add : SymExpr → SymExpr → SymExpr
  | mul : SymExpr → SymExpr → SymExpr
  | pow : SymExpr → ℤ → SymExpr
  | maxE : SymExpr → SymExpr → SymExpr
deriving DecidableEq

namespace SymExpr

/-- The flattened list of addends of a sum (sympy: the args of an `Add`). -/
def addArgsE : SymExpr → List SymExpr
  | add a b => addArgsE a ++ addArgsE b
  | e => [e]

/-- The flattened list of factors of a product (sympy: the args of a `Mul`). -/
def mulArgsE : SymExpr → List SymExpr
  | mul a b => mulArgsE a ++ mulArgsE b
  | e => [e]

/-- sympy `expr.args`: the top-level argument tuple of the expression.
Atoms (numbers and symbols) have no args. -/
def argsE (e : SymExpr) : List SymExpr :=
  match e with
  | add a b => addArgsE a ++ addArgsE b
  | mul a b => mulArgsE a ++ mulArgsE b
  | pow b k => [b, num (k : ℚ)]
  | maxE a b => [a, b]
  | num _ => []
  | sym _ => []

/-- sympy `expr.is_Symbol`. -/
def isSymbolE : SymExpr → Bool
  | sym _ => true
  | _ => false

/-- sympy `expr.subs(dict)` for a dictionary sending symbols to symbols
(the density-substitution dictionary of `fluid_approximation`). -/
def subsSyms (dict : List (String × String)) : SymExpr → SymExpr
  | num q => num q
  | sym s =>
      match dict.lookup s with
      | some d => sym d
      | none => sym s
  | add a b => add (subsSyms dict a) (subsSyms dict b)
  | mul a b => mul (subsSyms dict a) (subsSyms dict b)
  | pow b k => pow (subsSyms dict b) k
  | maxE a b => maxE (subsSyms dict a) (subsSyms dict b)

/-- sympy `expr.evalf(subs=dict)` restricted to its substitution effect:
symbols present in the dictionary are replaced by their numeric values,
absent symbols are left in place. -/
def subsNum (m : List (String × ℚ)) : SymExpr → SymExpr
  | num q => num q
  | sym s =>
      match m.lookup s with
      | some q => num q
      | none => sym s
  | add a b => add (subsNum m a) (subsNum m b)
  | mul a b => mul (subsNum m a) (subsNum m b)
  | pow b k => pow (subsNum m b) k
  | maxE a b => maxE (subsNum m a) (subsNum m b)

/-- Whether the symbol `s` occurs anywhere in the expression tree. -/
def containsSym (s : String) : SymExpr → Bool
  | num _ => false
  | sym t => t = s
  | add a b => containsSym s a || containsSym s b
  | mul a b => containsSym s a || containsSym s b
  | pow b _ => containsSym s b
  | maxE a b => containsSym s a || containsSym s b

/-- The distinct symbols other than the system-size symbol `N` occurring
anywhere in the expression tree (sympy: the species among `free_symbols`). -/
def treeSpecies : SymExpr → List String
  | num _ => []
  | sym s => if s = "N" then [] else [s]
  | add a b => (treeSpecies a ++ treeSpecies b).dedup
  | mul a b => (treeSpecies a ++ treeSpecies b).dedup
  | pow b _ => treeSpecies b
  | maxE a b => (treeSpecies a ++ treeSpecies b).dedup

/-- Numeric evaluation of an expression under an assignment of symbols,
unassigned symbols evaluating to `0`. -/
def evalQ (env : List (String × ℚ)) : SymExpr → ℚ
  | num q => q
  | sym s => ((env.lookup s).getD 0 : ℚ)
  | add a b => evalQ env a + evalQ env b
  | mul a b => evalQ env a * evalQ env b
  | pow b k => (evalQ env b) ^ k
  | maxE a b => max (evalQ env a) (evalQ env b)

/-- The sum of a list of expressions, `num 0` when the list is empty
(Python `sum` over sympy terms starts from `0`). -/
def sumE : List SymExpr → SymExpr
  | [] => num 0
  | x :: xs => xs.foldl add x

/-- Decomposition of an expression as (N-free part, degree in `N`) on the
fragment where it is a monomial in the symbol `N` with N-free coefficient
(sums of uniform degree included).  `none` outside that fragment. -/
def decompN : SymExpr → Option (SymExpr × ℤ)
  | num q => some (num q, 0)
  | sym s => if s = "N" then some (num 1, 1) else some (sym s, 0)
  | add a b => do
      let pa ← decompN a
      let pb ← decompN b
      if pa.2 = pb.2 then some (add pa.1 pb.1, pa.2) else none
  | mul a b => do
      let pa ← decompN a
      let pb ← decompN b
      some (mul pa.1 pb.1, pa.2 + pb.2)
  | pow b k => do
      let pb ← decompN b
      if pb.1 = num 1 then some (num 1, pb.2 * k)
      else if pb.2 = 0 then some (pow pb.1 k, 0) else none
  | maxE a b => do
      let pa ← decompN a
      let pb ← decompN b
      if pa.2 = 0 ∧ pb.2 = 0 then some (maxE pa.1 pb.1, 0) else none

/-- Model of `sym.limit(e, N, oo)` on Laurent polynomials in `N` with
N-free coefficients: a term of positive degree makes the limit infinite
(not modelled, `none`); otherwise negative-degree terms vanish and the
degree-zero terms survive. -/
def symLimit (e : SymExpr) : Option SymExpr :=
  match (addArgsE e).mapM decompN with
  | none => none
  | some ds =>
      if ds.any (fun p => 0 < p.2) then none
      else some (sumE ((ds.filter (fun p => p.2 = 0)).map Prod.fst))

end SymExpr

open SymExpr

/-- `variables_involved` of `fluid_approximation.py` (lines 17–24): the
top-level args of the rate function's sympy expression that are `Symbol`
instances.  Note this inspects only `expr.args`, not the whole tree. -/
def variables_involved (rate_func : SymExpr) : List SymExpr :=
  (argsE rate_func).filter isSymbolE

/-- The exponent `n` used by `scaling` (line 43): the length of
`variables_involved`. -/
def scalingExponent (rate_func : SymExpr) : ℕ :=
  (variables_involved rate_func).length

/-- The body of the loop of `scaling` (lines 42–49) for one rate function:
compute `n`, substitute individuals symbols by density symbols, form
`ratefun * N**n`, divide by `N` and take the limit as `N → ∞`. -/
def scalingOne (substitutor_dict : List (String × String)) (ratefun : SymExpr) :
    Option SymExpr :=
  let n : ℤ := scalingExponent ratefun
  let r := subsSyms substitutor_dict ratefun
  let ratefun_normalized := SymExpr.mul r (SymExpr.pow (SymExpr.sym "N") n)
  let f_N := SymExpr.mul ratefun_normalized (SymExpr.pow (SymExpr.sym "N") (-1))
  symLimit f_N

/-- `scaling` (lines 33–51): the vector of limit functions, one per rate
function, `none` when a limit falls outside the modelled fragment. -/
def scaling (rate_functions_vector : List SymExpr)
    (substitutor_dict : List (String × String)) : Option (List SymExpr) :=
  rate_functions_vector.mapM (scalingOne substitutor_dict)

/-- `create_equations` (lines 57–65): for each row `i` of the update
matrix, sum `f * elem` over `zip(symbolic_functions_vector, np_matrix[i])`. -/
def create_equations (np_matrix : List (List ℤ))
    (symbolic_functions_vector : List SymExpr) : List SymExpr :=
  np_matrix.map (fun row =>
    sumE (List.zipWith (fun f (elem : ℤ) => SymExpr.mul f (SymExpr.num (elem : ℚ)))
      symbolic_functions_vector row))

/-- `spamspamspam` (lines 67–75), with its closed-over data made explicit:
`foofoo` is the list of density symbols (the values of
`var_to_substitute`) and `eqs` the assembled equations.  Inside the loop
over the equations it builds the substitution
`{foofoo[0]: x[0], foofoo[1]: x[1], foofoo[2]: x[2]}` — an out-of-range
index (fewer than three density symbols or state components) raises in
Python, modelled as `none` for that iteration, hence for the run exactly
when the loop runs at least once. -/
def spamspamspam (foofoo : List String) (eqs : List SymExpr)
    (x : List ℚ) (t : ℚ) : Option (List SymExpr) :=
  eqs.mapM (fun each =>
    match foofoo, x with
    | d0 :: d1 :: d2 :: _, x0 :: x1 :: x2 :: _ =>
        some (subsNum [(d0, x0), (d1, x1), (d2, x2)] each)
    | _, _ => none)

/-- The keyword arguments read by `fluid_approximation` (lines 13–15). -/
structure FluidKwargs where
  rate_functions_var_ss : List SymExpr
  variablesList : List String
  system_size : ℚ

/-- `np.linspace(0, t_max, 1000)` (line 53). -/
def linspace1000 (t_max : ℚ) : List ℚ :=
  (List.range 1000).map (fun i => t_max * (i : ℚ) / 999)

/-- The data `fluid_approximation` (line 77) passes to `odeint` and then
prints: the ODE field function, the initial densities and the time grid. -/
structure OdeintCall where
  field : List ℚ → ℚ → Option (List SymExpr)
  y0 : List ℚ
  t : List ℚ

/-- `fluid_approximation` (lines 8–78).  The first component records the
`odeint` call whose result is printed (`none` when the symbolic limit falls
outside the modelled fragment); the second component is the function's
return value, which is always `None` in the source (line 78). -/
def fluid_approximation {α : Type} (update_matrix : List (List ℤ))
    (initial_conditions : List ℚ) (function_rate : α) (t_max : ℚ)
    (kw : FluidKwargs) : Option OdeintCall × Option (List ℚ × List (List ℚ)) :=
  let var_to_substitute := kw.variablesList.map (fun v => (v, "d_" ++ v))
  let d_initial_conditions := initial_conditions.map (fun x => x / kw.system_size)
  let t := linspace1000 t_max
  let printed :=
    match scaling kw.rate_functions_var_ss var_to_substitute with
    | none => none
    | some f_funcs =>
        let eqs := create_equations update_matrix f_funcs
        some { field := fun x tt => spamspamspam (var_to_substitute.map Prod.snd) eqs x tt,
               y0 := d_initial_conditions,
               t := t }
  (printed, none)

/-!
The `poppy.core` and `poppy.file_parser` modules are exercised by the
repository's tests but their sources are not part of the snapshot; the
definitions below are modelled from the specification text (sections 4.1,
4.3, 6 and 7) and say so in their doc comments.
-/

/-- Splitting a character list on a separator character. -/
def splitOnChar (c : Char) : List Char → List (List Char)
  | [] => [[]]
  | x :: xs =>
      let rest := splitOnChar c xs
      if x = c then [] :: rest
      else
        match rest with
        | [] => [[x]]
        | r :: rs => (x :: r) :: rs

/-- Dropping leading and trailing whitespace from a character list. -/
def trimChars (l : List Char) : List Char :=
  ((l.dropWhile Char.isWhitespace).reverse.dropWhile Char.isWhitespace).reverse

/-- Splitting a character list at the first occurrence of the arrow
token `=>`, giving the reactant side and product side of a reaction. -/
def splitArrow : List Char → Option (List Char × List Char)
  | [] => none
  | [_] => none
  | x :: y :: rest =>
      if x = Char.ofNat 61 ∧ y = Char.ofNat 62 then some ([], rest)
      else
        match splitArrow (y :: rest) with
        | some (l, r) => some (x :: l, r)
        | none => none

/-- The numeric value of a digit-character list read in base ten. -/
def digitsToNat : List Char → ℕ
  | [] => 0
  | ds => ds.foldl (fun acc d => 10 * acc + (d.toNat - 48)) 0

/-- Modelled from the spec: one term of a reaction side, per section 4.1
of the specification — strip surrounding whitespace, read a leading
integer multiplier (default 1), and take the remaining trimmed token as
the species name. -/
def parseTerm (term : List Char) : ℕ × String :=
  let t := trimChars term
  let digits := t.takeWhile Char.isDigit
  let restName := trimChars (t.dropWhile Char.isDigit)
  let coeff := if digits = [] then 1 else digitsToNat digits
  (coeff, String.mk restName)

/-- The parsed (coefficient, species-name) terms of one side of a
reaction: split on `+`, then parse each term. -/
def sideTerms (side : List Char) : List (ℕ × String) :=
  (splitOnChar (Char.ofNat 43) side).map parseTerm

/-- All species-name tokens a reaction string mentions, reactant side
then product side; empty when the string has no arrow. -/
def reactionTokens (reaction : String) : List String :=
  match splitArrow reaction.data with
  | none => []
  | some (l, r) => ((sideTerms l).map Prod.snd) ++ ((sideTerms r).map Prod.snd)

/-- The signed coefficient total of the species `s` on a parsed side. -/
def sideCoeff (terms : List (ℕ × String)) (s : String) : ℤ :=
  ((terms.filter (fun p => p.2 = s)).map (fun p => (p.1 : ℤ))).sum

/-- Modelled from the spec: `poppy.core.Reaction` construction (its source
is not in the snapshot; sections 4.1 and 7).  The reaction string is split
on the arrow and on `+`; each term's token must resolve against the
species registry, an unresolved token failing eagerly with the message
naming it; the update vector holds, per species, product coefficient
minus reactant coefficient. -/
def reactionUpdateVector (reaction : String) (species : List String) :
    Except String (List ℤ) :=
  match splitArrow reaction.data with
  | none => Except.error "Malformed reaction: no arrow found"
  | some (l, r) =>
      let reagents := sideTerms l
      let products := sideTerms r
      let tokens := (reagents ++ products).map Prod.snd
      match tokens.find? (fun tk => !(species.contains tk)) with
      | some tk =>
          Except.error ("Unable to find reagent '" ++ tk ++
            "' inside the list of variables")
      | none =>
          Except.ok (species.map (fun s => sideCoeff products s - sideCoeff reagents s))

/-- Modelled from the spec: `poppy.core.RateFunctionCollection` (its
source is not in the snapshot; section 4.3) — the ordered compiled rate
functions over the species symbols, with the species registry fixing the
index convention. -/
structure RateFunctionCollection where
  funcs : List SymExpr
  species : List String

/-- Modelled from the spec: evaluation of a `RateFunctionCollection` at a
numeric state (section 4.3).  The precondition compares the state's length
with the number of rate functions — not the species count — and its
violation fails with a message naming both sizes; otherwise each species
symbol is substituted with the matching state component in every compiled
expression, one output per rate function. -/
def RateFunctionCollection.compute (c : RateFunctionCollection)
    (state : List ℚ) : Except String (List ℚ) :=
  if state.length = c.funcs.length then
    Except.ok (c.funcs.map (evalQ (c.species.zip state)))
  else
    Except.error ("Array shapes mismatch: input vector " ++
      toString state.length ++ ", rate functions " ++
      toString c.funcs.length ++ ".")

/-- Whether a document line is well formed for the simple top-level
document shape of section 6: blank, indented or dash-led continuation
lines, or a `key: value` line containing a colon. -/
def lineWellFormed (l : List Char) : Bool :=
  trimChars l = [] ||
  (match l with
   | [] => true
   | c :: _ => c.isWhitespace || c = Char.ofNat 45) ||
  l.contains (Char.ofNat 58)

/-- The `key: rest` split of a top-level document line. -/
def lineEntry (l : List Char) : String × String :=
  let key := l.takeWhile (fun c => ¬ c = Char.ofNat 58)
  let rest := (l.dropWhile (fun c => ¬ c = Char.ofNat 58)).drop 1
  (String.mk (trimChars key), String.mk (trimChars rest))

/-- Stated from the specification's words (section 4.5), for comparison
with `create_equations`: the vector-field component for species `i` is the
sum over reactions of `update_matrix[reaction][i] · limit_field[reaction]`,
evaluated at a density assignment. -/
def specVectorFieldComponent (update_matrix : List (List ℤ))
    (limit_fields : List SymExpr) (i : ℕ) (env : List (String × ℚ)) : ℚ :=
  (List.zipWith (fun (row : List ℤ) f => ((row.getD i 0 : ℤ) : ℚ) * evalQ env f)
    update_matrix limit_fields).sum

/-- Decidable equality of fallible results, used to settle concrete
parser outcomes by evaluation. -/
instance {ε α : Type} [DecidableEq ε] [DecidableEq α] :
    DecidableEq (Except ε α) := fun a b =>
  match a, b with
  | Except.ok x, Except.ok y =>
      if h : x = y then isTrue (by rw [h]) else isFalse (by simp [h])
  | Except.error x, Except.error y =>
      if h : x = y then isTrue (by rw [h]) else isFalse (by simp [h])
  | Except.ok _, Except.error _ => isFalse (by simp)
  | Except.error _, Except.ok _ => isFalse (by simp)

/-- Whether a document line is a top-level `key: value` entry line:
non-blank, not a continuation (indented or dash-led) and holding a colon. -/
def isEntryLine (l : List Char) : Bool :=
  match l with
  | [] => false
  | c :: _ =>
      (¬ trimChars l = []) && (¬ c.isWhitespace) && (¬ c = Char.ofNat 45) &&
        l.contains (Char.ofNat 58)

/-- Modelled from the spec: `poppy.file_parser.yaml_string_to_dict_converter`
(its source is not in the snapshot; sections 6 and 7).  A blank or
whitespace-only document is valid input yielding the absent result `none`;
a malformed document raises instead; otherwise the mapping of top-level
entries is returned. -/
def yaml_string_to_dict_converter (s : String) :
    Except String (Option (List (String × String))) :=
  if s.data.all Char.isWhitespace then Except.ok none
  else
    let ls := splitOnChar (Char.ofNat 10) s.data
    if ls.all lineWellFormed then
      Except.ok (some ((ls.filter isEntryLine).map lineEntry))
    else
      Except.error "Malformed document"

/-!
Helper lemmas shared by the claim theorems.
-/

/-- A key found by `List.lookup` is the key of some entry of the list. -/
theorem lookup_mem_keys {β : Type} (m : List (String × β)) (t : String) (q : β)
    (h : List.lookup t m = some q) : ∃ p ∈ m, p.1 = t := by
  induction m with
  | nil => simp [List.lookup] at h
  | cons hd tl ih =>
      rw [List.lookup] at h
      by_cases he : t = hd.1
      · exact ⟨hd, List.mem_cons_self hd tl, he.symm⟩
      · have hb : (t == hd.1) = false := beq_false_of_ne he
        rw [hb] at h
        obtain ⟨p, hp, hk⟩ := ih h
        exact ⟨p, List.mem_cons_of_mem hd hp, hk⟩

/-- `mapM` over `Option` with an everywhere-successful function is `map`. -/
theorem mapM_some_eq_map {β γ : Type} (g : β → γ) (l : List β) :
    l.mapM (fun b => some (g b)) = some (l.map g) := by
  rw [← List.mapM'_eq_mapM]
  induction l with
  | nil => rfl
  | cons b bs ih => simp [List.mapM', ih]

/-- Substituting numeric values for the symbols of a dictionary leaves
every symbol that is not a key of the dictionary in place. -/
theorem containsSym_subsNum (m : List (String × ℚ)) (u : String) (e : SymExpr)
    (h : ∀ p ∈ m, ¬ p.1 = u) :
    containsSym u (subsNum m e) = containsSym u e := by
  induction e with
  | num q => rfl
  | sym t =>
      simp only [subsNum]
      cases hl : List.lookup t m with
      | none => rfl
      | some q =>
          obtain ⟨p, hp, hk⟩ := lookup_mem_keys m t q hl
          have ht : ¬ t = u := hk ▸ h p hp
          simp [containsSym, ht]
  | add a b iha ihb => simp [subsNum, containsSym, iha, ihb]
  | mul a b iha ihb => simp [subsNum, containsSym, iha, ihb]
  | pow b k ihb => simp [subsNum, containsSym, ihb]
  | maxE a b iha ihb => simp [subsNum, containsSym, iha, ihb]

/-!
The claim theorems.
-/

/-- C1: the fluid-approximation entry point is claimed to return the time
grid and the 1000×n density trajectory and never an absent result; in the
source (`fluid_approximation.py` lines 77–78) the trajectory is printed
and the function returns `None` — its return value, the second component
here, is absent for every input. -/
theorem fluid_approximation_returns_none {α : Type} (update_matrix : List (List ℤ))
    (initial_conditions : List ℚ) (function_rate : α) (t_max : ℚ)
    (kw : FluidKwargs) :
    (fluid_approximation update_matrix initial_conditions function_rate t_max kw).2
      = none := rfl

/-- C2: the claim states the field for species `i` is
Σ_reactions `update_matrix[reaction][i] · limit_field[reaction]` (the
transpose of the update matrix applied to the limit fields); the source's
`create_equations` (lines 57–65) instead sums along the rows of the
matrix.  With the SIR update matrix, fields (d_s, d_i, d_r) and the
density assignment d_s = 0, d_i = 0, d_r = 1, the code's component 0
evaluates to 0 while the claimed formula gives 1. -/
theorem create_equations_is_not_transpose_assembly :
    evalQ [("d_s", (0 : ℚ)), ("d_i", 0), ("d_r", 1)]
        ((create_equations [[-1, 1, 0], [0, -1, 1], [1, 0, -1]]
          [SymExpr.sym "d_s", SymExpr.sym "d_i", SymExpr.sym "d_r"]).getD 0
            (SymExpr.num 0)) = 0 ∧
    specVectorFieldComponent [[-1, 1, 0], [0, -1, 1], [1, 0, -1]]
        [SymExpr.sym "d_s", SymExpr.sym "d_i", SymExpr.sym "d_r"] 0
        [("d_s", (0 : ℚ)), ("d_i", 0), ("d_r", 1)] = 1 := by
  constructor
  · norm_num [create_equations, sumE, evalQ, List.lookup]
    decide
  · norm_num [specVectorFieldComponent, evalQ, List.lookup]
    decide

/-- C3: the claim states the exponent `k` of `r_N = r · N^k` counts the
distinct species symbols the rate expression references anywhere in its
tree; `variables_involved` (lines 17–24) inspects only the top-level
`expr.args`.  For `x_i + 2*x_r` the code's exponent is 1 though the tree
references two species, and for the bare symbol `x_r` (whose sympy args
are empty) the exponent is 0 though one species is referenced. -/
theorem variables_involved_is_shallow :
    scalingExponent
        (SymExpr.add (SymExpr.sym "x_i")
          (SymExpr.mul (SymExpr.num 2) (SymExpr.sym "x_r"))) = 1 ∧
    (treeSpecies
        (SymExpr.add (SymExpr.sym "x_i")
          (SymExpr.mul (SymExpr.num 2) (SymExpr.sym "x_r")))).length = 2 ∧
    scalingExponent (SymExpr.sym "x_r") = 0 ∧
    (treeSpecies (SymExpr.sym "x_r")).length = 1 := by decide

/-- C4 counterexample: the claim states a pure-constant rate expression
limits to itself; for the constant `-2` (the compiled form of the test's
rate function `"4 - 6"`) the source's scaling step yields the limit of
`-2 · N^0 / N = -2/N`, which is `0`, not `-2`. -/
theorem constant_rate_scaling_counterexample :
    scalingOne [] (SymExpr.num (-2)) = some (SymExpr.num 0) ∧
    ¬ scalingOne [] (SymExpr.num (-2)) = some (SymExpr.num (-2)) := by decide

/-- C4 as amended: for every pure-constant rate expression `c` and every
substitution dictionary, the fluid-limit derivation of `scaling` yields
`0` as the limit field (the `k = 0` case gives `f_N = c/N → 0`). -/
theorem constant_rate_limits_to_zero (substitutor_dict : List (String × String))
    (c : ℚ) : scalingOne substitutor_dict (SymExpr.num c) = some (SymExpr.num 0) := rfl

/-- C5: evaluating a `RateFunctionCollection` at a state fails exactly when
the state's length differs from the number of rate functions (not the
species count: the right-hand sides below never mention `c.species`), and
the failure message names both sizes in the documented form. -/
theorem rate_function_collection_dim_check (c : RateFunctionCollection)
    (state : List ℚ) :
    ((∃ msg, c.compute state = Except.error msg) ↔
        ¬ state.length = c.funcs.length) ∧
    (¬ state.length = c.funcs.length →
      c.compute state = Except.error ("Array shapes mismatch: input vector " ++
        toString state.length ++ ", rate functions " ++
        toString c.funcs.length ++ ".")) := by
  unfold RateFunctionCollection.compute
  by_cases h : state.length = c.funcs.length
  · simp [h]
  · simp [h]

/-- C5 witness: a three-function collection evaluated at a two-component
state fails with the documented message. -/
theorem rate_function_collection_dim_check_witness :
    (RateFunctionCollection.mk [SymExpr.num 1, SymExpr.num 2, SymExpr.num 3]
      ["x_s", "x_i", "x_r"]).compute [1, 2] =
      Except.error "Array shapes mismatch: input vector 2, rate functions 3." :=
  (rate_function_collection_dim_check
    (RateFunctionCollection.mk [SymExpr.num 1, SymExpr.num 2, SymExpr.num 3]
      ["x_s", "x_i", "x_r"]) [1, 2]).2 (by decide)

/-- C6: a reaction string containing a token that resolves to no declared
species fails at construction with an error naming an offending (missing)
reagent. -/
theorem reaction_unresolved_token_fails (reaction : String)
    (species : List String) (tk : String) (h1 : tk ∈ reactionTokens reaction)
    (h2 : ¬ species.contains tk = true) :
    ∃ u, ¬ species.contains u = true ∧
      reactionUpdateVector reaction species =
        Except.error ("Unable to find reagent '" ++ u ++
          "' inside the list of variables") := by
  cases hs : splitArrow reaction.data with
  | none =>
      exfalso
      rw [reactionTokens, hs] at h1
      simp at h1
  | some lr =>
      obtain ⟨l, r⟩ := lr
      have h1m : tk ∈ List.map Prod.snd (sideTerms l ++ sideTerms r) := by
        rw [reactionTokens, hs] at h1
        simpa [List.map_append] using h1
      cases hf : List.find? (fun t => !(species.contains t))
          (List.map Prod.snd (sideTerms l ++ sideTerms r)) with
      | none =>
          exfalso
          have hall := List.find?_eq_none.mp hf tk h1m
          exact h2 (by simpa using hall)
      | some u =>
          have hu := List.find?_some hf
          refine ⟨u, by simpa using hu, ?_⟩
          simp only [reactionUpdateVector, hs, hf]

/-- C6 witness: the test's reaction `"R1 + R2 => 2 P1"` against species
`[x_s, x_i, x_r]` fails naming a missing reagent. -/
theorem reaction_unresolved_token_fails_witness :
    ∃ u, ¬ (["x_s", "x_i", "x_r"].contains u = true) ∧
      reactionUpdateVector "R1 + R2 => 2 P1" ["x_s", "x_i", "x_r"] =
        Except.error ("Unable to find reagent '" ++ u ++
          "' inside the list of variables") :=
  reaction_unresolved_token_fails "R1 + R2 => 2 P1" ["x_s", "x_i", "x_r"] "R1"
    (by decide) (by decide)

/-- C7: over the species ordering `[x_s, x_i, x_r]`, reaction parsing
produces the signed update vectors of the three documented examples,
integer coefficients greater than one included. -/
theorem reaction_update_vector_examples :
    reactionUpdateVector "x_s => x_i" ["x_s", "x_i", "x_r"] =
      Except.ok [-1, 1, 0] ∧
    reactionUpdateVector "x_s + x_i => x_r" ["x_s", "x_i", "x_r"] =
      Except.ok [-1, -1, 1] ∧
    reactionUpdateVector "3x_s + x_i => x_r" ["x_s", "x_i", "x_r"] =
      Except.ok [-3, -1, 1] := by decide

/-- C8: a blank or whitespace-only document converts to the absent result
`none` — not an error and not a mapping — while a malformed document
raises, a distinct outcome. -/
theorem blank_document_converts_to_absent (s : String)
    (h : s.data.all Char.isWhitespace = true) :
    yaml_string_to_dict_converter s = Except.ok none ∧
    yaml_string_to_dict_converter "not a mapping line" =
      Except.error "Malformed document" := by
  constructor
  · unfold yaml_string_to_dict_converter
    rw [if_pos h]
  · decide

/-- C8 witness: the empty document and the one-newline document both
convert to the absent result. -/
theorem blank_document_converts_to_absent_witness :
    yaml_string_to_dict_converter "\n" = Except.ok none ∧
    yaml_string_to_dict_converter "not a mapping line" =
      Except.error "Malformed document" :=
  blank_document_converts_to_absent "\n" (by decide)

/-- C9: the ODE field function `spamspamspam` substitutes only the first
three density symbols and reads only `x[0]`, `x[1]`, `x[2]`: whenever the
equation loop runs at least once (a model has at least one reaction, so
the assembled equation list is nonempty), fewer than three density
symbols or state components fail on out-of-range indexing (modelled
`none`), and with more than three any further density symbol occurring in
an equation is left unsubstituted in the output. -/
theorem spamspamspam_assumes_three_species :
    (∀ (foofoo : List String) (eqs : List SymExpr) (x : List ℚ) (t : ℚ),
        ¬ eqs = [] → foofoo.length < 3 ∨ x.length < 3 →
          spamspamspam foofoo eqs x t = none) ∧
    (∀ (d0 d1 d2 : String) (rest : List String) (eqs : List SymExpr)
        (x0 x1 x2 : ℚ) (xr : List ℚ) (t : ℚ) (u : String) (e : SymExpr),
        ¬ u = d0 → ¬ u = d1 → ¬ u = d2 → e ∈ eqs → containsSym u e = true →
        ∃ l, spamspamspam (d0 :: d1 :: d2 :: rest) eqs (x0 :: x1 :: x2 :: xr) t
            = some l ∧ ∃ e2, e2 ∈ l ∧ containsSym u e2 = true) := by
  constructor
  · intro foofoo eqs x t hne h
    obtain ⟨e, es, rfl⟩ : ∃ e es, eqs = e :: es := by
      cases eqs with
      | nil => exact absurd rfl hne
      | cons e es => exact ⟨e, es, rfl⟩
    match foofoo, x with
    | [], _ => rfl
    | [_], _ => rfl
    | [_, _], _ => rfl
    | _ :: _ :: _ :: _, [] => rfl
    | _ :: _ :: _ :: _, [_] => rfl
    | _ :: _ :: _ :: _, [_, _] => rfl
    | a :: b :: c :: fr, p :: q :: w :: xs =>
        exfalso
        rcases h with h | h <;> simp [List.length_cons] at h <;> omega
  · intro d0 d1 d2 rest eqs x0 x1 x2 xr t u e h0 h1 h2 he hc
    have hrun : spamspamspam (d0 :: d1 :: d2 :: rest) eqs (x0 :: x1 :: x2 :: xr) t
        = some (eqs.map (fun each => subsNum [(d0, x0), (d1, x1), (d2, x2)] each)) :=
      mapM_some_eq_map (fun each => subsNum [(d0, x0), (d1, x1), (d2, x2)] each) eqs
    refine ⟨eqs.map (fun each => subsNum [(d0, x0), (d1, x1), (d2, x2)] each), hrun,
      subsNum [(d0, x0), (d1, x1), (d2, x2)] e, List.mem_map_of_mem _ he, ?_⟩
    rw [containsSym_subsNum]
    · exact hc
    · intro p hp
      simp only [List.mem_cons, List.not_mem_nil, or_false] at hp
      rcases hp with hp | hp | hp <;> subst hp
      · exact fun hh => h0 hh.symm
      · exact fun hh => h1 hh.symm
      · exact fun hh => h2 hh.symm

/-- C9 witness: a one-species model fails, and in a four-species model the
fourth density symbol survives unsubstituted in the field values. -/
theorem spamspamspam_assumes_three_species_witness :
    spamspamspam ["d_a"] [SymExpr.num 1] [1] 0 = none ∧
    (∃ l, spamspamspam ["d_1", "d_2", "d_3", "d_4"] [SymExpr.sym "d_4"]
        [1, 2, 3, 4] 0 = some l ∧
      ∃ e2, e2 ∈ l ∧ containsSym "d_4" e2 = true) :=
  ⟨spamspamspam_assumes_three_species.1 ["d_a"] [SymExpr.num 1] [1] 0
     (by decide) (by decide),
   spamspamspam_assumes_three_species.2 "d_1" "d_2" "d_3" ["d_4"]
     [SymExpr.sym "d_4"] 1 2 3 [4] 0 "d_4" (SymExpr.sym "d_4")
     (by decide) (by decide) (by decide) (by decide) (by decide)⟩

/-- C10: the positional argument `function_rate` of `fluid_approximation`
is never read — two calls differing only in it produce identical results
(the recorded odeint call and the return value alike). -/
theorem fluid_approximation_ignores_function_rate {α : Type}
    (update_matrix : List (List ℤ)) (initial_conditions : List ℚ)
    (fr1 fr2 : α) (t_max : ℚ) (kw : FluidKwargs) :
    fluid_approximation update_matrix initial_conditions fr1 t_max kw =
      fluid_approximation update_matrix initial_conditions fr2 t_max kw := rfl
